import Mathlib

/-
Verification of the scroll-timing and pause-marker engine of the
Bissy Teleprompter (component TeleprompterDisplay).  The definitions
below are a shallow embedding of the JavaScript source: positions,
speeds and timestamps are rationals, DOM refs that may be absent are
Options, and the React effects are modelled as explicit transition
functions over an immutable state record.
-/

set_option maxHeartbeats 1000000

set_option linter.unusedVariables false

set_option allowUnsafeReducibility true

attribute [local semireducible] Rat.mul Rat.add Rat.sub Rat.inv

namespace Teleprompter

/-- A pause marker node as scanned from the rendered content.  The field
top and bottom give the vertical extent of the node, in content
coordinates (its bounding client rect at scroll offset 0 relative to the
display container top).  The field dataPause is the result of the
JavaScript parseFloat applied to the data-pause attribute: none models
NaN (attribute absent or unparsable). -/
structure Marker where
  id : Nat
  top : ℚ
  bottom : ℚ
  dataPause : Option ℚ
deriving DecidableEq

/-- Geometry of the display container (displayRef): its bounding client
rect top and height, and its scrollHeight and clientHeight. -/
structure Display where
  rectTop : ℚ
  rectHeight : ℚ
  scrollHeight : ℚ
  clientHeight : ℚ
deriving DecidableEq

/-- The DOM environment of one tick: the display container and the
rendered content (with its pause markers), each possibly unavailable
(null ref), as in displayRef.current / contentRef.current. -/
structure Env where
  display : Option Display
  content : Option (List Marker)
deriving DecidableEq

/-- The mutable state of the TeleprompterDisplay component: the React
state variables isPlaying, isPaused, speed, pauseTimeRemaining and the
refs scrollPositionRef, lastTimeRef, pauseStartTimeRef,
currentPauseMarkerRef (markers identified by id), plus the scrollTop
property of the display element as last assigned. -/
structure TState where
  isPlaying : Bool
  isPaused : Bool
  speed : ℚ
  pauseTimeRemaining : ℚ
  scrollPosition : ℚ
  scrollTop : ℚ
  lastTime : Option ℚ
  pauseStartTime : Option ℚ
  currentPauseMarker : Option Nat
deriving DecidableEq

/-- Initial component state: not playing, not paused, speed 60,
position 0, all refs null. -/
def initialState : TState :=
  { isPlaying := false, isPaused := false, speed := 60,
    pauseTimeRemaining := 0, scrollPosition := 0, scrollTop := 0,
    lastTime := none, pauseStartTime := none, currentPauseMarker := none }

/-- The JavaScript idiom parseFloat(x) || 3: the fallback 3 is taken
exactly when the parse result is falsy, that is NaN (modelled none) or
0.  A negative parse result is truthy and is returned unchanged. -/
def jsParseOr3 (v : Option ℚ) : ℚ :=
  match v with
  | none => 3
  | some q => if q = 0 then 3 else q

/-- Result of checkForPauseMarker: the matched marker (by id) and the
pause duration derived from its attribute. -/
structure PauseInfo where
  markerId : Nat
  duration : ℚ
deriving DecidableEq

/-- The y coordinate of the reading line: the vertical midpoint of the
display container, displayRect.top + displayRect.height / 2. -/
def centerY (d : Display) : ℚ := d.rectTop + d.rectHeight / 2

/-- Screen (client rect) top of a marker at the given scroll offset. -/
def markerScreenTop (d : Display) (scrollTop : ℚ) (m : Marker) : ℚ :=
  d.rectTop + m.top - scrollTop

/-- Screen (client rect) bottom of a marker at the given scroll offset. -/
def markerScreenBottom (d : Display) (scrollTop : ℚ) (m : Marker) : ℚ :=
  d.rectTop + m.bottom - scrollTop

/-- The straddle test of checkForPauseMarker:
markerRect.top <= centerY && markerRect.bottom >= centerY. -/
def straddles (d : Display) (scrollTop : ℚ) (m : Marker) : Bool :=
  decide (markerScreenTop d scrollTop m ≤ centerY d) &&
  decide (centerY d ≤ markerScreenBottom d scrollTop m)

/-- checkForPauseMarker: returns null when the content or display ref is
unavailable; otherwise scans the markers in document order and returns
the first one whose bounds straddle the reading line, together with its
duration parseFloat(data-pause) || 3. -/
def checkForPauseMarker (env : Env) (scrollTop : ℚ) : Option PauseInfo :=
  match env.display, env.content with
  | some d, some markers =>
    match markers.find? (straddles d scrollTop) with
    | some m => some { markerId := m.id, duration := jsParseOr3 m.dataPause }
    | none => none
  | _, _ => none

/-- Maximum scrollable extent: scrollHeight - clientHeight. -/
def maxScroll (d : Display) : ℚ := d.scrollHeight - d.clientHeight

/-- The normal-scrolling tail of one animate tick: integrate
speed * deltaTime into scrollPositionRef, assign it to scrollTop, then
stop playing when the new position reached maxScroll.  Note the stored
position is not clamped. -/
def scrollStep (d : Display) (s : TState) (deltaTime : ℚ) : TState :=
  let pos := s.scrollPosition + s.speed * deltaTime
  let s1 : TState := { s with scrollPosition := pos, scrollTop := pos }
  if maxScroll d ≤ pos then { s1 with isPlaying := false } else s1

/-- One animate(currentTime) callback.  No-op when a ref is unavailable.
When lastTimeRef is null the tick only records the baseline timestamp.
Otherwise deltaTime is computed in seconds, lastTimeRef is updated, the
pause-marker check runs against the current scrollTop (the position
committed by the previous tick), and a pause session is opened when the
found marker differs from currentPauseMarkerRef; else normal scrolling
applies the delta. -/
def animate (env : Env) (s : TState) (t : ℚ) : TState :=
  match env.display, env.content with
  | some d, some _ =>
    match s.lastTime with
    | none => { s with lastTime := some t }
    | some last =>
      let deltaTime := (t - last) / 1000
      let s1 : TState := { s with lastTime := some t }
      match checkForPauseMarker env s1.scrollTop with
      | some info =>
        if some info.markerId ≠ s1.currentPauseMarker then
          { s1 with currentPauseMarker := some info.markerId,
                    pauseStartTime := some t,
                    pauseTimeRemaining := info.duration,
                    isPaused := true }
        else scrollStep d s1 deltaTime
      | none => scrollStep d s1 deltaTime
  | _, _ => s

/-- togglePlayPause: the setIsPaused updater clears an active pause
session (refs nulled, isPaused false) when paused; the setIsPlaying
updater then flips isPlaying unconditionally, nulling lastTimeRef when
it was not playing. -/
def togglePlayPause (s : TState) : TState :=
  let s1 : TState :=
    if s.isPaused then
      { s with isPaused := false, pauseStartTime := none,
               currentPauseMarker := none }
    else s
  if s1.isPlaying then { s1 with isPlaying := false }
  else { s1 with isPlaying := true, lastTime := none }

/-- handleReset: clears both flags, zeroes the position, nulls every
ref, zeroes the countdown display, and forces the viewport scrollTop to
0 when the display ref is available. -/
def handleReset (env : Env) (s : TState) : TState :=
  let s1 : TState :=
    { s with isPlaying := false, isPaused := false, scrollPosition := 0,
             lastTime := none, pauseStartTime := none,
             currentPauseMarker := none, pauseTimeRemaining := 0 }
  match env.display with
  | some _ => { s1 with scrollTop := 0 }
  | none => s1

/-- jumpBackward: no-op without display; else subtract 5 lines of 24 px,
floored at 0, and apply to the viewport immediately. -/
def jumpBackward (env : Env) (s : TState) : TState :=
  match env.display with
  | none => s
  | some _ =>
    let pos := max 0 (s.scrollPosition - 120)
    { s with scrollPosition := pos, scrollTop := pos }

/-- jumpForward: no-op without display; else add 5 lines of 24 px,
capped at maxScroll, and apply to the viewport immediately. -/
def jumpForward (env : Env) (s : TState) : TState :=
  match env.display with
  | none => s
  | some d =>
    let pos := min (maxScroll d) (s.scrollPosition + 120)
    { s with scrollPosition := pos, scrollTop := pos }

/-- ArrowUp key: speed becomes min(speed + 10, 200). -/
def arrowUpSpeed (s : TState) : TState :=
  { s with speed := min (s.speed + 10) 200 }

/-- ArrowDown key: speed becomes max(speed - 10, 10). -/
def arrowDownSpeed (s : TState) : TState :=
  { s with speed := max (s.speed - 10) 10 }

/-- handleSpeedChange: setSpeed(parseInt(e.target.value)); the handler
assigns the parsed value directly, with no clamping. -/
def handleSpeedChange (v : ℚ) (s : TState) : TState :=
  { s with speed := v }

/-- The data-pause attribute read through currentPauseMarkerRef: none
both when the ref is null (optional chaining yields undefined, hence
parseFloat gives NaN) and when the attribute itself is unparsable. -/
def currentMarkerPauseAttr (env : Env) (ref : Option Nat) : Option ℚ :=
  match ref, env.content with
  | some i, some markers =>
    match markers.find? (fun m => m.id == i) with
    | some m => m.dataPause
    | none => none
  | _, _ => none

/-- One updatePauseCountdown(currentTime) callback: computes the
elapsed pause time, re-reads the duration from the current marker
(parseFloat(...) || 3), updates pauseTimeRemaining to the remaining
time floored at 0, and on completion clears isPaused and nulls
pauseStartTimeRef and currentPauseMarkerRef. -/
def updatePauseCountdown (env : Env) (s : TState) (t : ℚ) : TState :=
  match s.pauseStartTime with
  | none => s
  | some start =>
    let pauseElapsed := (t - start) / 1000
    let pauseDuration := jsParseOr3 (currentMarkerPauseAttr env s.currentPauseMarker)
    let remaining := max 0 (pauseDuration - pauseElapsed)
    let s1 : TState := { s with pauseTimeRemaining := remaining }
    if pauseDuration ≤ pauseElapsed then
      { s1 with isPaused := false, pauseStartTime := none,
                currentPauseMarker := none }
    else s1

/-- Re-running the main animation effect: whenever its dependencies
change and the new state has isPlaying and not isPaused, the effect
body nulls lastTimeRef before scheduling the first frame. -/
def reconcileAnim (s : TState) : TState :=
  if s.isPlaying && !s.isPaused then { s with lastTime := none } else s

/-- The guard under which the main animation effect keeps a frame
scheduled: isPlaying and not isPaused. -/
def animScheduled (s : TState) : Bool := s.isPlaying && !s.isPaused

/-- The guard under which the countdown effect keeps a frame scheduled:
isPaused with a non-null pauseStartTimeRef. -/
def countdownScheduled (s : TState) : Bool :=
  s.isPaused && s.pauseStartTime.isSome

/-- External commands and tick events driving the component. -/
inductive Cmd where
  | toggle : Cmd
  | reset : Cmd
  | speedChange : ℚ → Cmd
  | speedUp : Cmd
  | speedDown : Cmd
  | jumpF : Cmd
  | jumpB : Cmd
  | tick : ℚ → Cmd
  | countdown : ℚ → Cmd

/-- One transition of the component: the handler plus the React effect
reconciliation it triggers.  Tick events fire only under the guard of
the effect that schedules them; a speed command whose value equals the
current speed causes no re-render and hence no effect restart. -/
def applyCmd (env : Env) (s : TState) : Cmd → TState
  | Cmd.toggle => reconcileAnim (togglePlayPause s)
  | Cmd.reset => handleReset env s
  | Cmd.speedChange v =>
    if v = s.speed then s else reconcileAnim (handleSpeedChange v s)
  | Cmd.speedUp =>
    let s1 := arrowUpSpeed s
    if s1.speed = s.speed then s else reconcileAnim s1
  | Cmd.speedDown =>
    let s1 := arrowDownSpeed s
    if s1.speed = s.speed then s else reconcileAnim s1
  | Cmd.jumpF => jumpForward env s
  | Cmd.jumpB => jumpBackward env s
  | Cmd.tick t => if animScheduled s then animate env s t else s
  | Cmd.countdown t =>
    if countdownScheduled s then
      let s1 := updatePauseCountdown env s t
      if s1.isPaused == s.isPaused then s1 else reconcileAnim s1
    else s

/-- States reachable from the initial state by any command sequence. -/
inductive Reachable (env : Env) : TState → Prop where
  | init : Reachable env initialState
  | step (s : TState) (c : Cmd) : Reachable env s → Reachable env (applyCmd env s c)

/-- Modelled from the spec wording of the re-evaluation ordering, for
comparison with animate only: a variant of the tick whose marker
re-evaluation uses the position the tick is about to commit (the entry
position plus this tick delta) instead of the entry position.  The code
under verification does not behave like this function. -/
def animateCheckAtCommitted (env : Env) (s : TState) (t : ℚ) : TState :=
  match env.display, env.content with
  | some d, some _ =>
    match s.lastTime with
    | none => { s with lastTime := some t }
    | some last =>
      let deltaTime := (t - last) / 1000
      let s1 : TState := { s with lastTime := some t }
      let proposed := s1.scrollPosition + s1.speed * deltaTime
      match checkForPauseMarker env proposed with
      | some info =>
        if some info.markerId ≠ s1.currentPauseMarker then
          { s1 with currentPauseMarker := some info.markerId,
                    pauseStartTime := some t,
                    pauseTimeRemaining := info.duration,
                    isPaused := true }
        else scrollStep d s1 deltaTime
      | none => scrollStep d s1 deltaTime
  | _, _ => s

/-- Display geometry used by the concrete scenarios: reading line at
y = 50, maximum scrollable extent 100. -/
def demoDisplay : Display :=
  { rectTop := 0, rectHeight := 100, scrollHeight := 600, clientHeight := 500 }

/-- A well-formed pause marker straddling the reading line at scroll
offset 0 (extent 40 to 60, declared duration 2 seconds). -/
def demoMarker : Marker :=
  { id := 0, top := 40, bottom := 60, dataPause := some 2 }

/-- Environment with the display mounted and one well-formed marker. -/
def demoEnv : Env :=
  { display := some demoDisplay, content := some [demoMarker] }

/-- A state with an active pause session: playing, paused at position 0
with marker 0 honored since time 100. -/
def pausedDemo : TState :=
  { initialState with isPlaying := true, isPaused := true,
                      pauseTimeRemaining := 2, pauseStartTime := some 100,
                      currentPauseMarker := some 0 }

/-- A playing state two frames before the end of the document. -/
def endState : TState :=
  { initialState with isPlaying := true, lastTime := some 0,
                      scrollPosition := 90, scrollTop := 90 }

/-- Environment with the display mounted and no markers at all. -/
def endEnv : Env :=
  { display := some demoDisplay, content := some ([] : List Marker) }

/-- A marker whose declared duration parses to the negative number -2. -/
def negMarker : Marker :=
  { id := 7, top := 40, bottom := 60, dataPause := some (-2) }

/-- Environment holding only the negative-duration marker. -/
def negEnv : Env :=
  { display := some demoDisplay, content := some [negMarker] }

/-- A marker with no parsable duration attribute. -/
def nanMarker : Marker :=
  { id := 0, top := 40, bottom := 60, dataPause := none }

/-- Environment holding only the unparsable-duration marker. -/
def nanEnv : Env :=
  { display := some demoDisplay, content := some [nanMarker] }

/-- A paused state honoring the unparsable-duration marker. -/
def nanPausedState : TState :=
  { initialState with isPlaying := true, isPaused := true,
                      pauseStartTime := some 0, currentPauseMarker := some 0 }

/-- A small marker that straddles the reading line at the entry position
of a fast tick but not at the position that tick commits. -/
def c8Marker : Marker :=
  { id := 3, top := 45, bottom := 55, dataPause := some 2 }

/-- Environment holding only that small marker. -/
def c8Env : Env :=
  { display := some demoDisplay, content := some [c8Marker] }

/-- A playing state at position 0 at maximum speed with a recorded
baseline, one frame away from scrolling 20 px. -/
def c8State : TState :=
  { initialState with isPlaying := true, lastTime := some 0, speed := 200 }

/-- The state after play is pressed and two frames run in demoEnv: the
second frame finds marker 0 on the reading line and opens a session. -/
def c2Paused : TState :=
  applyCmd demoEnv
    (applyCmd demoEnv (applyCmd demoEnv initialState Cmd.toggle) (Cmd.tick 0))
    (Cmd.tick 100)

/-- The state after the countdown for that session completes at time
2100 (elapsed 2 seconds, the declared duration). -/
def c2Resumed : TState := applyCmd demoEnv c2Paused (Cmd.countdown 2100)

/-- The first animation frame after scrolling resumes (baseline). -/
def c2TickA : TState := applyCmd demoEnv c2Resumed (Cmd.tick 2200)

/-- The second animation frame after scrolling resumes. -/
def c2TickB : TState := applyCmd demoEnv c2TickA (Cmd.tick 2300)

/-- First of two markers that straddle the reading line together. -/
def overlapA : Marker :=
  { id := 1, top := 40, bottom := 60, dataPause := some 4 }

/-- Second of two markers that straddle the reading line together. -/
def overlapB : Marker :=
  { id := 2, top := 45, bottom := 58, dataPause := some 5 }

/-- A successful find? splits its list into a failing list, the hit, and
a remainder; used to express that checkForPauseMarker honors the first
straddling marker in document order. -/
theorem find?_split {α : Type} (p : α → Bool) (l : List α) (a : α)
    (h : l.find? p = some a) :
    p a = true ∧ ∃ l₁ l₂, l = l₁ ++ a :: l₂ ∧ ∀ b ∈ l₁, p b = false := by
  induction l with
  | nil => simp [List.find?] at h
  | cons x xs ih =>
    cases hx : p x with
    | true =>
      rw [List.find?_cons_of_pos _ hx] at h
      cases h
      exact ⟨hx, [], xs, rfl, by simp⟩
    | false =>
      rw [List.find?_cons_of_neg _ (by simp [hx])] at h
      obtain ⟨hpa, l₁, l₂, hsplit, hall⟩ := ih h
      refine ⟨hpa, x :: l₁, l₂, by rw [hsplit, List.cons_append], ?_⟩
      intro b hb
      rcases List.mem_cons.mp hb with hb | hb
      · rw [hb]; exact hx
      · exact hall b hb

/-- togglePlayPause always leaves the component un-paused. -/
theorem toggle_isPaused (s : TState) : (togglePlayPause s).isPaused = false := by
  unfold togglePlayPause
  by_cases hp : s.isPaused = true <;> by_cases hq : s.isPlaying = true <;>
    simp_all

/-- togglePlayPause always flips isPlaying. -/
theorem toggle_isPlaying (s : TState) :
    (togglePlayPause s).isPlaying = !s.isPlaying := by
  unfold togglePlayPause
  by_cases hp : s.isPaused = true <;> by_cases hq : s.isPlaying = true <;>
    simp_all

/-- Effect reconciliation changes neither flag. -/
theorem reconcileAnim_flags (s : TState) :
    (reconcileAnim s).isPaused = s.isPaused
    ∧ (reconcileAnim s).isPlaying = s.isPlaying := by
  unfold reconcileAnim
  split <;> simp

/-- The countdown callback never changes isPlaying. -/
theorem updatePauseCountdown_isPlaying (env : Env) (s : TState) (t : ℚ) :
    (updatePauseCountdown env s t).isPlaying = s.isPlaying := by
  unfold updatePauseCountdown
  split
  · rfl
  · dsimp only
    split <;> rfl

/-- Normal scrolling never changes isPaused. -/
theorem scrollStep_isPaused (d : Display) (s : TState) (dt : ℚ) :
    (scrollStep d s dt).isPaused = s.isPaused := by
  unfold scrollStep
  dsimp only
  split <;> rfl

/-- handleReset clears both flags. -/
theorem handleReset_flags (env : Env) (s : TState) :
    (handleReset env s).isPlaying = false ∧ (handleReset env s).isPaused = false := by
  unfold handleReset
  dsimp only
  split <;> exact ⟨rfl, rfl⟩

/-- A tick keeps the invariant: when entered playing and un-paused, a
paused result can only arise from the pause branch, which keeps
isPlaying. -/
theorem animate_inv (env : Env) (s : TState) (t : ℚ)
    (hq : s.isPlaying = true) (hp : s.isPaused = false) :
    (animate env s t).isPaused = true → (animate env s t).isPlaying = true := by
  unfold animate
  split
  · split
    · intro _; exact hq
    · dsimp only
      split
      · split
        · intro _; exact hq
        · rw [scrollStep_isPaused]
          dsimp only
          intro h; rw [hp] at h; cases h
      · rw [scrollStep_isPaused]
        dsimp only
        intro h; rw [hp] at h; cases h
  · intro h; rw [hp] at h; cases h

/-- Every single transition preserves the pause-implies-play
invariant. -/
theorem applyCmd_inv (env : Env) (s : TState) (c : Cmd)
    (ih : s.isPaused = true → s.isPlaying = true) :
    (applyCmd env s c).isPaused = true → (applyCmd env s c).isPlaying = true := by
  cases c with
  | toggle =>
    simp only [applyCmd]
    rw [(reconcileAnim_flags _).1, toggle_isPaused]
    intro h; cases h
  | reset =>
    simp only [applyCmd]
    rw [(handleReset_flags env s).2]
    intro h; cases h
  | speedChange v =>
    simp only [applyCmd]
    split
    · exact ih
    · rw [(reconcileAnim_flags _).1, (reconcileAnim_flags _).2]
      exact ih
  | speedUp =>
    simp only [applyCmd]
    split
    · exact ih
    · rw [(reconcileAnim_flags _).1, (reconcileAnim_flags _).2]
      exact ih
  | speedDown =>
    simp only [applyCmd]
    split
    · exact ih
    · rw [(reconcileAnim_flags _).1, (reconcileAnim_flags _).2]
      exact ih
  | jumpF =>
    simp only [applyCmd]
    unfold jumpForward
    split
    · exact ih
    · exact ih
  | jumpB =>
    simp only [applyCmd]
    unfold jumpBackward
    split
    · exact ih
    · exact ih
  | tick t =>
    simp only [applyCmd]
    by_cases hg : animScheduled s = true
    · rw [if_pos hg]
      simp only [animScheduled, Bool.and_eq_true, Bool.not_eq_true'] at hg
      exact animate_inv env s t hg.1 hg.2
    · rw [if_neg hg]; exact ih
  | countdown t =>
    simp only [applyCmd]
    by_cases hg : countdownScheduled s = true
    · rw [if_pos hg]
      simp only [countdownScheduled, Bool.and_eq_true] at hg
      have hq : s.isPlaying = true := ih hg.1
      intro _
      split
      · rw [updatePauseCountdown_isPlaying]; exact hq
      · rw [(reconcileAnim_flags _).2, updatePauseCountdown_isPlaying]
        exact hq
    · rw [if_neg hg]; exact ih

/-- The core invariant of the transport state machine: in every
reachable state, an active pause implies an active play session. -/
theorem reachable_inv (env : Env) (s : TState) (h : Reachable env s) :
    s.isPaused = true → s.isPlaying = true := by
  induction h with
  | init => intro hp; cases hp
  | step s c hr ih => exact applyCmd_inv env s c ih

/-- C1 (amended): togglePlayPause always ends un-paused and always flips
isPlaying; when invoked during a pause session it additionally clears
the session refs without waiting for the countdown.  Because an active
pause session has isPlaying true, the unconditional flip turns isPlaying
off: the command stops the play session instead of leaving isPlaying
true. -/
theorem claim_C1 (s : TState) :
    (togglePlayPause s).isPaused = false
    ∧ (togglePlayPause s).isPlaying = !s.isPlaying
    ∧ (s.isPaused = true →
        (togglePlayPause s).pauseStartTime = none
        ∧ (togglePlayPause s).currentPauseMarker = none) := by
  refine ⟨toggle_isPaused s, toggle_isPlaying s, ?_⟩
  intro hp
  unfold togglePlayPause
  rw [if_pos hp]
  dsimp only
  split <;> exact ⟨rfl, rfl⟩

/-- C1 witness: the amended theorem applied to the concrete paused
state pausedDemo. -/
theorem claim_C1_witness :
    (togglePlayPause pausedDemo).isPaused = false
    ∧ (togglePlayPause pausedDemo).pauseStartTime = none :=
  ⟨(claim_C1 pausedDemo).1, ((claim_C1 pausedDemo).2.2 (by decide)).1⟩

/-- C1 counterexample: from a state with an active pause session the
claim says isPlaying remains true after togglePlayPause, but the code
flips it to false. -/
theorem claim_C1_counterexample :
    pausedDemo.isPaused = true ∧ pausedDemo.isPlaying = true
    ∧ (togglePlayPause pausedDemo).isPlaying = false := by decide

/-- C2 (code bug, evaluated): play starts at time 0 and the second frame
finds marker 0 on the reading line and opens a 2 second session; when
the countdown completes at time 2100 the code nulls the marker memory
instead of retaining the id, so the next two frames re-open a session
for the same marker with the position still frozen at 0: the marker is
re-triggered forever and scrolling never passes it. -/
theorem claim_C2_bug :
    c2Paused.isPaused = true ∧ c2Paused.currentPauseMarker = some 0
    ∧ c2Paused.scrollPosition = 0
    ∧ c2Resumed.isPaused = false ∧ c2Resumed.currentPauseMarker = none
    ∧ c2TickB.isPaused = true ∧ c2TickB.currentPauseMarker = some 0
    ∧ c2TickB.scrollPosition = 0 := by decide

/-- C3 (amended): handleSpeedChange assigns the parsed value with no
clamping and does not touch the position; only the ArrowUp and
ArrowDown keyboard operations clamp, to min(speed+10, 200) and
max(speed-10, 10), staying inside [10, 200] when the speed starts
there; a speed change applied while playing restarts the animation
effect, which nulls the timestamp baseline. -/
theorem claim_C3 (v : ℚ) (s : TState) :
    (handleSpeedChange v s).speed = v
    ∧ (handleSpeedChange v s).scrollPosition = s.scrollPosition
    ∧ (arrowUpSpeed s).speed = min (s.speed + 10) 200
    ∧ (arrowDownSpeed s).speed = max (s.speed - 10) 10
    ∧ (10 ≤ s.speed →
        10 ≤ (arrowUpSpeed s).speed ∧ 10 ≤ (arrowDownSpeed s).speed)
    ∧ (s.speed ≤ 200 →
        (arrowUpSpeed s).speed ≤ 200 ∧ (arrowDownSpeed s).speed ≤ 200)
    ∧ (s.isPlaying = true → s.isPaused = false →
        (reconcileAnim (handleSpeedChange v s)).lastTime = none) := by
  refine ⟨rfl, rfl, rfl, rfl, ?_, ?_, ?_⟩
  · intro h
    constructor
    · exact le_min (by linarith) (by norm_num)
    · exact le_max_right _ _
  · intro h
    constructor
    · exact min_le_right _ _
    · exact max_le (by linarith) (by norm_num)
  · intro hq hp
    simp [reconcileAnim, handleSpeedChange, hq, hp]

/-- C3 witness: the amended theorem applied at speed value 9999 on the
initial state (speed 60). -/
theorem claim_C3_witness :
    (handleSpeedChange 9999 initialState).speed = 9999
    ∧ 10 ≤ (arrowUpSpeed initialState).speed
    ∧ (arrowUpSpeed initialState).speed ≤ 200 := by
  have h := claim_C3 9999 initialState
  exact ⟨h.1, (h.2.2.2.2.1 (by decide)).1, (h.2.2.2.2.2.1 (by decide)).1⟩

/-- C3 counterexample: the claim says setting speed to -5 yields an
effective speed of 10; handleSpeedChange assigns -5 unclamped. -/
theorem claim_C3_counterexample :
    (handleSpeedChange (-5) initialState).speed = -5
    ∧ ¬ (handleSpeedChange (-5) initialState).speed = 10 := by decide

/-- C4 (amended): a scrolling tick with no pause trigger whose
integrated position reaches or passes maxScroll sets isPlaying to
false, but the persisted position is not clamped: both the position ref
and the assigned viewport scrollTop keep the full integrated value,
overshoot included. -/
theorem claim_C4 (d : Display) (ms : List Marker) (s : TState) (t last : ℚ)
    (hplay : s.isPlaying = true)
    (hlast : s.lastTime = some last)
    (hchk : checkForPauseMarker { display := some d, content := some ms } s.scrollTop = none)
    (hend : maxScroll d ≤ s.scrollPosition + s.speed * ((t - last) / 1000)) :
    (animate { display := some d, content := some ms } s t).isPlaying = false
    ∧ (animate { display := some d, content := some ms } s t).scrollPosition
        = s.scrollPosition + s.speed * ((t - last) / 1000)
    ∧ (animate { display := some d, content := some ms } s t).scrollTop
        = s.scrollPosition + s.speed * ((t - last) / 1000) := by
  unfold animate
  dsimp only
  rw [hlast]
  dsimp only
  rw [hchk]
  unfold scrollStep
  dsimp only
  rw [if_pos hend]
  exact ⟨rfl, rfl, rfl⟩

/-- C4 witness: the amended theorem at the concrete end-of-document
state: position 90, speed 60, one second of delta, extent 100. -/
theorem claim_C4_witness :
    (animate { display := some demoDisplay, content := some ([] : List Marker) } endState 1000).isPlaying = false
    ∧ (animate { display := some demoDisplay, content := some ([] : List Marker) } endState 1000).scrollPosition
        = endState.scrollPosition + endState.speed * ((1000 - 0) / 1000)
    ∧ (animate { display := some demoDisplay, content := some ([] : List Marker) } endState 1000).scrollTop
        = endState.scrollPosition + endState.speed * ((1000 - 0) / 1000) :=
  claim_C4 demoDisplay [] endState 1000 0 (by decide) (by decide) (by decide) (by decide)

/-- C4 counterexample: the claim says positionPx is clamped to exactly
maxScrollExtent (100 here); the code persists the overshoot 150. -/
theorem claim_C4_counterexample :
    (animate endEnv endState 1000).isPlaying = false
    ∧ (animate endEnv endState 1000).scrollPosition = 150
    ∧ (animate endEnv endState 1000).scrollTop = 150
    ∧ maxScroll demoDisplay = 100
    ∧ ¬ (animate endEnv endState 1000).scrollPosition = maxScroll demoDisplay := by
  decide

/-- C5 (amended): a declared duration that is unparsable (NaN) or that
parses to exactly 0 is replaced by the fallback 3, both when opening a
session and during the countdown; a negative parsed duration is not
replaced and is used as-is. -/
theorem claim_C5 (v : Option ℚ) (hv : v = none ∨ v = some 0)
    (d : Display) (ms : List Marker) (m : Marker) (st : ℚ)
    (hfind : ms.find? (straddles d st) = some m) (hm : m.dataPause = v)
    (env : Env) (s : TState) (t start : ℚ)
    (hstart : s.pauseStartTime = some start)
    (hattr : currentMarkerPauseAttr env s.currentPauseMarker = v) :
    checkForPauseMarker { display := some d, content := some ms } st
      = some { markerId := m.id, duration := 3 }
    ∧ (updatePauseCountdown env s t).pauseTimeRemaining
        = max 0 (3 - (t - start) / 1000)
    ∧ ∀ q : ℚ, ¬ q = 0 → jsParseOr3 (some q) = q := by
  have h3 : jsParseOr3 v = 3 := by
    rcases hv with rfl | rfl
    · rfl
    · simp [jsParseOr3]
  refine ⟨?_, ?_, ?_⟩
  · unfold checkForPauseMarker
    dsimp only
    rw [hfind]
    dsimp only
    rw [hm, h3]
  · unfold updatePauseCountdown
    rw [hstart]
    dsimp only
    rw [hattr, h3]
    split <;> rfl
  · intro q hq
    simp [jsParseOr3, hq]

/-- C5 witness: the amended theorem at the unparsable-duration marker:
the opened session and the countdown both use duration 3. -/
theorem claim_C5_witness :
    checkForPauseMarker { display := some demoDisplay, content := some [nanMarker] } 0
      = some { markerId := nanMarker.id, duration := 3 }
    ∧ (updatePauseCountdown nanEnv nanPausedState 1000).pauseTimeRemaining
        = max 0 (3 - (1000 - 0) / 1000) := by
  have h := claim_C5 none (Or.inl rfl) demoDisplay [nanMarker] nanMarker 0
    (by decide) rfl nanEnv nanPausedState 1000 0 (by decide) (by decide)
  exact ⟨h.1, h.2.1⟩

/-- C5 counterexample: the claim says a non-positive declared duration
is replaced by 3; the code passes the negative parse -2 through. -/
theorem claim_C5_counterexample :
    negMarker.dataPause = some (-2)
    ∧ ((-2 : ℚ) ≤ 0)
    ∧ checkForPauseMarker negEnv 0 = some { markerId := 7, duration := -2 }
    ∧ ¬ checkForPauseMarker negEnv 0 = some { markerId := 7, duration := 3 } := by
  decide

/-- C6: a play command issued while idle nulls the baseline timestamp;
a tick that finds a null baseline only records the current timestamp
and changes neither the position nor the viewport (zero delta); a tick
with a recorded baseline and no marker on the reading line advances the
position by speed times elapsed seconds. -/
theorem claim_C6 (d : Display) (ms : List Marker) (s s2 : TState)
    (t t2 last : ℚ) :
    (s.isPlaying = false → (togglePlayPause s).lastTime = none)
    ∧ (s.lastTime = none →
        (animate { display := some d, content := some ms } s t).scrollPosition
            = s.scrollPosition
        ∧ (animate { display := some d, content := some ms } s t).scrollTop
            = s.scrollTop
        ∧ (animate { display := some d, content := some ms } s t).lastTime
            = some t)
    ∧ (s2.lastTime = some last →
        checkForPauseMarker { display := some d, content := some ms } s2.scrollTop = none →
        (animate { display := some d, content := some ms } s2 t2).scrollPosition
          = s2.scrollPosition + s2.speed * ((t2 - last) / 1000)) := by
  refine ⟨?_, ?_, ?_⟩
  · intro hq
    unfold togglePlayPause
    by_cases hp : s.isPaused = true <;> simp [hp, hq]
  · intro hl
    unfold animate
    dsimp only
    rw [hl]
    exact ⟨rfl, rfl, rfl⟩
  · intro hl hchk
    unfold animate
    dsimp only
    rw [hl]
    dsimp only
    rw [hchk]
    unfold scrollStep
    dsimp only
    split <;> rfl

/-- C6 witness: the theorem applied to the initial state (idle, null
baseline) at time 500, and to the end-run state with baseline 0 at
time 1000. -/
theorem claim_C6_witness :
    (togglePlayPause initialState).lastTime = none
    ∧ (animate { display := some demoDisplay, content := some [demoMarker] } initialState 500).lastTime = some 500
    ∧ (animate { display := some demoDisplay, content := some [demoMarker] } initialState 500).scrollPosition = initialState.scrollPosition
    ∧ (animate { display := some demoDisplay, content := some [demoMarker] } endState 1000).scrollPosition
        = endState.scrollPosition + endState.speed * ((1000 - 0) / 1000) := by
  have h := claim_C6 demoDisplay [demoMarker] initialState endState 500 1000 0
  exact ⟨h.1 (by decide), (h.2.1 (by decide)).2.2, (h.2.1 (by decide)).1,
    h.2.2 (by decide) (by decide)⟩

/-- C7: reset from any state zeroes positionPx, clears both flags, the
session refs and the countdown display, nulls the baseline, forces the
viewport offset to 0 when the display is mounted, leaves neither tick
stream scheduled, and is idempotent. -/
theorem claim_C7 (env : Env) (s : TState) :
    (handleReset env s).isPlaying = false
    ∧ (handleReset env s).isPaused = false
    ∧ (handleReset env s).scrollPosition = 0
    ∧ (handleReset env s).pauseStartTime = none
    ∧ (handleReset env s).currentPauseMarker = none
    ∧ (handleReset env s).pauseTimeRemaining = 0
    ∧ (handleReset env s).lastTime = none
    ∧ (env.display.isSome = true → (handleReset env s).scrollTop = 0)
    ∧ handleReset env (handleReset env s) = handleReset env s
    ∧ animScheduled (handleReset env s) = false
    ∧ countdownScheduled (handleReset env s) = false := by
  cases hd : env.display <;>
    simp [handleReset, animScheduled, countdownScheduled, hd]

/-- C7 witness: reset of the concrete paused state in the mounted
environment. -/
theorem claim_C7_witness :
    (handleReset demoEnv pausedDemo).isPlaying = false
    ∧ (handleReset demoEnv pausedDemo).scrollTop = 0 := by
  have h := claim_C7 demoEnv pausedDemo
  exact ⟨h.1, h.2.2.2.2.2.2.2.1 (by decide)⟩

/-- C8 (amended): the marker re-evaluation inside a tick runs against
the viewport position at tick entry (the position the previous tick
committed), before this tick delta is applied: whenever that check
finds a marker other than the honored one, the tick opens a pause
session and does not move the position. -/
theorem claim_C8 (d : Display) (ms : List Marker) (s : TState)
    (t last : ℚ) (info : PauseInfo)
    (hlast : s.lastTime = some last)
    (hchk : checkForPauseMarker { display := some d, content := some ms } s.scrollTop = some info)
    (hnew : ¬ some info.markerId = s.currentPauseMarker) :
    animate { display := some d, content := some ms } s t =
      { s with lastTime := some t,
               currentPauseMarker := some info.markerId,
               pauseStartTime := some t,
               pauseTimeRemaining := info.duration,
               isPaused := true } := by
  unfold animate
  dsimp only
  rw [hlast]
  dsimp only
  rw [hchk]
  dsimp only
  rw [if_pos hnew]

/-- C8 witness: the amended theorem at the concrete fast tick: the
marker straddles the line at the entry position 0, so the tick pauses
with the position frozen. -/
theorem claim_C8_witness :
    animate { display := some demoDisplay, content := some [c8Marker] } c8State 100 =
      { c8State with lastTime := some 100, currentPauseMarker := some 3,
                     pauseStartTime := some 100, pauseTimeRemaining := 2,
                     isPaused := true } :=
  claim_C8 demoDisplay [c8Marker] c8State 100 0 { markerId := 3, duration := 2 }
    (by decide) (by decide) (by decide)

/-- C8 counterexample: with the small marker and a 20 px frame the code
(checking at the entry position 0, where the marker straddles) pauses
and freezes the position, while the claim semantics (checking at the
committed position 20, where it does not straddle) scrolls on: the two
evaluation orders are observably different on the same tick. -/
theorem claim_C8_counterexample :
    (animate c8Env c8State 100).isPaused = true
    ∧ (animate c8Env c8State 100).scrollPosition = 0
    ∧ (animateCheckAtCommitted c8Env c8State 100).isPaused = false
    ∧ (animateCheckAtCommitted c8Env c8State 100).scrollPosition = 20
    ∧ checkForPauseMarker c8Env c8State.scrollTop
        = some { markerId := 3, duration := 2 }
    ∧ checkForPauseMarker c8Env
        (c8State.scrollPosition + c8State.speed * ((100 - 0) / 1000)) = none := by
  decide

/-- C9: in every reachable state an active pause implies an active play
session, and the two flags determine which tick streams act: when not
playing neither tick changes the state, when playing and not paused the
countdown tick is inert, and when paused the scroll tick is inert. -/
theorem claim_C9 (env : Env) (s : TState) (h : Reachable env s) (t : ℚ) :
    (s.isPaused = true → s.isPlaying = true)
    ∧ (s.isPlaying = false →
        applyCmd env s (Cmd.tick t) = s ∧ applyCmd env s (Cmd.countdown t) = s)
    ∧ (s.isPaused = false → applyCmd env s (Cmd.countdown t) = s)
    ∧ (s.isPaused = true → applyCmd env s (Cmd.tick t) = s) := by
  have hinv := reachable_inv env s h
  refine ⟨hinv, ?_, ?_, ?_⟩
  · intro hq
    have hp : s.isPaused = false := by
      cases hps : s.isPaused
      · rfl
      · rw [hinv hps] at hq; cases hq
    constructor
    · simp [applyCmd, animScheduled, hq]
    · simp [applyCmd, countdownScheduled, hp]
  · intro hp
    simp [applyCmd, countdownScheduled, hp]
  · intro hp
    simp [applyCmd, animScheduled, hp]

/-- C9 witness: the invariant applied to the concrete reachable paused
state reached by pressing play and letting two frames run. -/
theorem claim_C9_witness :
    (applyCmd demoEnv (applyCmd demoEnv (applyCmd demoEnv initialState Cmd.toggle) (Cmd.tick 0)) (Cmd.tick 100)).isPlaying = true := by
  have hr : Reachable demoEnv (applyCmd demoEnv (applyCmd demoEnv (applyCmd demoEnv initialState Cmd.toggle) (Cmd.tick 0)) (Cmd.tick 100)) :=
    Reachable.step _ _ (Reachable.step _ _ (Reachable.step _ _ Reachable.init))
  exact (claim_C9 demoEnv _ hr 0).1 (by decide)

/-- C10: checkForPauseMarker is a pure function of the geometry; it
returns none when a ref is missing or when no marker straddles the
reading line (the exact vertical midpoint of the container, top plus
half the height), and otherwise the first straddling marker in document
order together with its parsed duration, ignoring every later
straddling marker. -/
theorem claim_C10 (d : Display) (ms : List Marker) (st : ℚ) :
    checkForPauseMarker { display := none, content := some ms } st = none
    ∧ checkForPauseMarker { display := some d, content := none } st = none
    ∧ ((∀ m ∈ ms, straddles d st m = false) →
        checkForPauseMarker { display := some d, content := some ms } st = none)
    ∧ (∀ info, checkForPauseMarker { display := some d, content := some ms } st = some info →
        ∃ m l₁ l₂, ms = l₁ ++ m :: l₂
          ∧ info.markerId = m.id
          ∧ info.duration = jsParseOr3 m.dataPause
          ∧ d.rectTop + m.top - st ≤ d.rectTop + d.rectHeight / 2
          ∧ d.rectTop + d.rectHeight / 2 ≤ d.rectTop + m.bottom - st
          ∧ ∀ m2 ∈ l₁, straddles d st m2 = false) := by
  refine ⟨rfl, rfl, ?_, ?_⟩
  · intro hall
    unfold checkForPauseMarker
    dsimp only
    have hnone : ms.find? (straddles d st) = none := by
      rw [List.find?_eq_none]
      intro a ha
      rw [hall a ha]
      simp
    rw [hnone]
  · intro info hinfo
    unfold checkForPauseMarker at hinfo
    dsimp only at hinfo
    cases hfind : ms.find? (straddles d st) with
    | none => rw [hfind] at hinfo; cases hinfo
    | some m =>
      rw [hfind] at hinfo
      dsimp only at hinfo
      injection hinfo with hinj
      subst hinj
      obtain ⟨hstr, l₁, l₂, hsplit, hall⟩ := find?_split _ ms m hfind
      simp only [straddles, markerScreenTop, markerScreenBottom, centerY,
        Bool.and_eq_true, decide_eq_true_eq] at hstr
      exact ⟨m, l₁, l₂, hsplit, rfl, rfl, hstr.1, hstr.2, hall⟩

/-- C10 witness: with two markers straddling the reading line at once,
the first one in document order is honored and the second ignored; a
missing display ref makes the query a no-op. -/
theorem claim_C10_witness :
    checkForPauseMarker { display := none, content := some [overlapA, overlapB] } 0 = none
    ∧ (∃ m l₁ l₂, ([overlapA, overlapB] : List Marker) = l₁ ++ m :: l₂
        ∧ ({ markerId := 1, duration := 4 } : PauseInfo).markerId = m.id
        ∧ ({ markerId := 1, duration := 4 } : PauseInfo).duration = jsParseOr3 m.dataPause
        ∧ demoDisplay.rectTop + m.top - 0 ≤ demoDisplay.rectTop + demoDisplay.rectHeight / 2
        ∧ demoDisplay.rectTop + demoDisplay.rectHeight / 2 ≤ demoDisplay.rectTop + m.bottom - 0
        ∧ ∀ m2 ∈ l₁, straddles demoDisplay 0 m2 = false) := by
  have h := claim_C10 demoDisplay [overlapA, overlapB] 0
  exact ⟨(claim_C10 demoDisplay [overlapA, overlapB] 0).1,
    h.2.2.2 { markerId := 1, duration := 4 } (by decide)⟩

end Teleprompter
